import Mathlib

/-!
Verification of the VitaBand real-time monitoring pipeline.

This file gives a shallow embedding of the parts of the repository that the
claims are about:

* `src/app/recommendation_engine.py` — label classification, priority
  selection, priority level, and narrative composition (`interpret`);
* `src/app/main.py` — `ActivityMonitor.predict` (prediction normalization,
  binarization, length reconciliation, active-label extraction) and the
  per-cycle error policy of `monitor_continuous`;
* `src/app/sensor_manager.py` — the last-value-wins sensor buffer
  (`read_all_sensors`, `get_sensor_status`) and the stateless line parser
  (`_parse_line`).

Python floats are modelled as exact unnormalized fractions (`Frac`, an
integer numerator over a natural denominator).  The claims under study only
compare values against constants, truncate them, or render them with a fixed
number of decimals, so exact rational semantics is faithful on every input
exercised here.  Machine integers are `Int`/`Nat`; fallible calls return
`Except`/`Option`.  External collaborators (the scaler and the model) are
parameters of the embedded `predict`, exactly as the spec treats them
(opaque vector-in / vector-out boundary objects); the single call to
`random.choice(INTRO_PHRASES)` in `interpret` is exposed as an explicit
`intro` argument, the only non-deterministic input of the engine.
-/

/-- Exact fraction: numerator over (positive, by construction) denominator.
Models a Python float value.  Kept unnormalized so that all operations are
plain `Int`/`Nat` arithmetic. -/
structure Frac where
  num : Int
  den : Nat
deriving DecidableEq, Repr

/-- Helper: `fdec m k` is the decimal literal `m * 10^(-k)`; e.g. `fdec 379 1 = 37.9`. -/
def fdec (m : Int) (k : Nat) : Frac := ⟨m, 10 ^ k⟩

/-- Comparison `a <= b` on fractions with positive denominators (cross-multiplication). -/
def Frac.le (a b : Frac) : Bool := decide (a.num * (b.den : Int) ≤ b.num * (a.den : Int))

/-- Comparison `a < b` on fractions with positive denominators. -/
def Frac.lt (a b : Frac) : Bool := decide (a.num * (b.den : Int) < b.num * (a.den : Int))

/-! ## recommendation_engine.py — static text resources -/

/-- Table `ACTIVITY_DESCRIPTIONS` from recommendation_engine.py. -/
def ACTIVITY_DESCRIPTIONS : List (String × String) :=
  [("Resting", "Your body is calm and you're not doing any physical activity."),
   ("Light activity", "You're moving lightly, maybe walking around or doing something small."),
   ("Moderate activity", "You're fairly active, like walking fast or doing light exercise."),
   ("High activity", "Your body is working hard, similar to jogging or physical work."),
   ("Sleeping", "You're currently in a relaxed sleep state."),
   ("Walking", "You're moving at a steady walking pace."),
   ("Running", "You're engaged in a high-effort activity like running."),
   ("Sedentary", "You've been sitting or staying in one position for a while.")]

/-- Table `HEALTH_STATUS_DESCRIPTIONS` from recommendation_engine.py. -/
def HEALTH_STATUS_DESCRIPTIONS : List (String × String) :=
  [("Normal", "Everything looks okay with your readings."),
   ("Healthy", "Your readings fall within a good and stable range."),
   ("Slight abnormality", "Something looks a bit off, but not serious."),
   ("Warning", "Some readings are outside the normal range and need attention."),
   ("Critical", "Your readings suggest a serious condition that needs immediate care.")]

/-- Table `ENVIRONMENTAL_DESCRIPTIONS` from recommendation_engine.py. -/
def ENVIRONMENTAL_DESCRIPTIONS : List (String × String) :=
  [("Hot environment", "The temperature around you is higher than normal."),
   ("Cold environment", "The surrounding temperature is quite low."),
   ("Humid environment", "The humidity level is high where you are."),
   ("Low-pressure environment", "The air pressure around you is lower than normal.")]

/-- Table `HEALTH_CONDITION_DESCRIPTIONS` from recommendation_engine.py. -/
def HEALTH_CONDITION_DESCRIPTIONS : List (String × String) :=
  [("Stressed", "Your body is showing signs of stress."),
   ("Fatigued", "You're showing signs of tiredness."),
   ("Dehydrated", "Your hydration level may be low."),
   ("Possible fever", "Your temperature is higher than normal."),
   ("Low oxygen state", "Your oxygen level is lower than it should be."),
   ("Overexertion", "Your body is working harder than normal."),
   ("Early illness indication", "Some patterns suggest you might be coming down with something.")]

/-- Table `CONDITION_INTENSITY_MESSAGES` from recommendation_engine.py. -/
def CONDITION_INTENSITY_MESSAGES : List (String × List (String × String)) :=
  [("Stressed",
    [("mild", "Your stress level is slightly raised."),
     ("moderate", "You're showing noticeable signs of stress."),
     ("high", "Your stress level is high and it's worth taking immediate steps to relax.")]),
   ("Fatigued",
    [("mild", "You seem a bit tired."),
     ("moderate", "You're getting noticeably fatigued; consider resting soon."),
     ("high", "You're very fatigued and need proper rest.")]),
   ("Dehydrated",
    [("mild", "You might need to drink a little more water."),
     ("moderate", "You're getting dehydrated and should drink water soon."),
     ("high", "You're likely very dehydrated — rehydrate as soon as possible.")]),
   ("Possible fever",
    [("mild", "Your temperature is slightly above normal."),
     ("moderate", "Your temperature is fairly high."),
     ("high", "Your temperature is very high and may need urgent attention.")]),
   ("Low oxygen state",
    [("mild", "Your oxygen level is a bit below normal."),
     ("moderate", "Your oxygen level is low and needs attention."),
     ("high", "Your oxygen level is dangerously low — seek help immediately.")]),
   ("Overexertion",
    [("mild", "You're pushing yourself a little."),
     ("moderate", "You're working your body harder than usual."),
     ("high", "You're overexerting and should stop to rest right away.")]),
   ("Early illness indication",
    [("mild", "There are a few small signs that something may be starting."),
     ("moderate", "There are several signs that could mean you're getting unwell."),
     ("high", "Strong signs suggest you may be getting ill — monitor closely or consult a clinician.")])]

/-- Table `RECOMMENDATION_ACTIONS` from recommendation_engine.py. -/
def RECOMMENDATION_ACTIONS : List (String × String) :=
  [("Critical", "Please get medical help immediately. It's not safe to ignore this."),
   ("Low oxygen state", "Move to a place with better airflow. If it does not improve, seek medical support."),
   ("Possible fever", "Try to rest and drink water. Check your temperature again later. If it stays high, consult a doctor."),
   ("Dehydrated", "Drink water and rest in a cool spot for a while."),
   ("Overexertion", "Stop and rest. Allow your body to recover before continuing."),
   ("Stressed", "Pause for a moment, take slow breaths, and try to relax."),
   ("Fatigued", "Consider resting or taking a short nap if possible."),
   ("Hot environment", "Move somewhere cooler and hydrate if you can."),
   ("Cold environment", "Try to warm up or move to a warmer place."),
   ("Humid environment", "Ensure good ventilation and drink water."),
   ("Low-pressure environment", "If you feel dizzy, sit down and allow your body to adjust."),
   ("Running", "Slow down if needed and make sure you drink enough water."),
   ("Walking", "Keep a steady pace and stay hydrated if outdoors."),
   ("Sedentary", "Stand up, stretch, or go for a short walk."),
   ("Resting", "No action needed right now."),
   ("Light activity", "You can continue what you're doing."),
   ("Moderate activity", "You're doing okay; slow down if you feel tired."),
   ("High activity", "Be careful and hydrate; slow down if you feel strained.")]

/-- Table `LABEL_PRIORITY` from recommendation_engine.py (higher = more important). -/
def LABEL_PRIORITY : List (String × Int) :=
  [("Critical", 100), ("Low oxygen state", 90), ("Possible fever", 85),
   ("Overexertion", 80), ("Dehydrated", 75), ("Fatigued", 70), ("Stressed", 65),
   ("Running", 40), ("High activity", 38), ("Moderate activity", 35),
   ("Walking", 30), ("Light activity", 25), ("Resting", 20), ("Sedentary", 15),
   ("Sleeping", 10),
   ("Hot environment", 12), ("Cold environment", 11), ("Humid environment", 10),
   ("Low-pressure environment", 9)]

/-- Table `INTRO_PHRASES` from recommendation_engine.py; `interpret` picks one of
these with `random.choice`. -/
def INTRO_PHRASES : List String :=
  ["From your readings,", "Based on the sensors,", "From what the data shows,"]

/-- Lookup `self.priority.get(l, 0)` — priority of a label, defaulting to 0. -/
def prio (l : String) : Int := (LABEL_PRIORITY.lookup l).getD 0

/-- The running `best` of Python's `max(labels, key=...)`: replace the current
best only when the new key is strictly greater (so the first maximum wins). -/
def select_aux (b : String) : List String → String
  | [] => b
  | l :: ls => select_aux (if prio b < prio l then l else b) ls

/-- Method `RecommendationEngine._select_top_label`: highest-priority label, `None`
for the empty list. -/
def select_top_label (labels : List String) : Option String :=
  match labels with
  | [] => none
  | x :: xs => some (select_aux x xs)

/-- Method `RecommendationEngine._classify_labels`: partition into
(activity, conditions, environment, status); unknown labels fall into
conditions. -/
def classify_labels : List String → List String × List String × List String × List String
  | [] => ([], [], [], [])
  | l :: ls =>
    let r := classify_labels ls
    if (ACTIVITY_DESCRIPTIONS.lookup l).isSome then (l :: r.1, r.2.1, r.2.2.1, r.2.2.2)
    else if (HEALTH_CONDITION_DESCRIPTIONS.lookup l).isSome then (r.1, l :: r.2.1, r.2.2.1, r.2.2.2)
    else if (ENVIRONMENTAL_DESCRIPTIONS.lookup l).isSome then (r.1, r.2.1, l :: r.2.2.1, r.2.2.2)
    else if (HEALTH_STATUS_DESCRIPTIONS.lookup l).isSome then (r.1, r.2.1, r.2.2.1, l :: r.2.2.2)
    else (r.1, l :: r.2.1, r.2.2.1, r.2.2.2)

/-- Python `dict.fromkeys` deduplication keeping the first occurrence. -/
def dedup_first (l : List String) : List String :=
  l.foldl (fun acc x => if acc.contains x then acc else acc ++ [x]) []

/-- Method `RecommendationEngine._format_list`. -/
def format_list (items : List String) (connector : String) : String :=
  let items := dedup_first items
  match items with
  | [] => ""
  | [a] => a
  | [a, b] => a ++ " " ++ connector ++ " " ++ b
  | _ => String.intercalate ", " items.dropLast ++ ", " ++ connector ++ " " ++ items.getLastD ""

/-- Method `RecommendationEngine._cond_message`; a looked-up empty string is falsy
in Python's `or`, hence the explicit `= ""` fallbacks. -/
def cond_message (label : String) (intensity : Option String) : String :=
  if label = "" then ""
  else
    match CONDITION_INTENSITY_MESSAGES.lookup label with
    | some m =>
      if intensity = some "mild" ∨ intensity = some "moderate" ∨ intensity = some "high" then
        match m.lookup (intensity.getD "") with
        | some s => if s = "" then (HEALTH_CONDITION_DESCRIPTIONS.lookup label).getD "" else s
        | none => (HEALTH_CONDITION_DESCRIPTIONS.lookup label).getD ""
      else
        match m.lookup "moderate" with
        | some s => s
        | none => (HEALTH_CONDITION_DESCRIPTIONS.lookup label).getD ""
    | none => (HEALTH_CONDITION_DESCRIPTIONS.lookup label).getD ""

/-- Priority-level cascade of `RecommendationEngine.interpret`
(recommendation_engine.py lines 263-270), embedded verbatim:
`critical` / `warning` / `caution` / `normal`. -/
def priority_level (labels : List String) : String :=
  if select_top_label labels = some "Critical" ∨ "Critical" ∈ labels then "critical"
  else if labels.any (fun l => l == "Low oxygen state" || l == "Possible fever" || l == "Warning") then "warning"
  else if labels.any (fun l => (HEALTH_CONDITION_DESCRIPTIONS.lookup l).isSome) then "caution"
  else "normal"

/-- The priority cascade as the spec sentence for claim C3 words it after
amendment: `caution` is triggered by the labels *known* to the condition
table (not by unknown labels, although the classifier files those under
conditions). -/
def spec_priority_level (labels : List String) : String :=
  if "Critical" ∈ labels then "critical"
  else if labels.any (fun l => l == "Low oxygen state" || l == "Possible fever" || l == "Warning") then "warning"
  else if labels.any (fun l => (HEALTH_CONDITION_DESCRIPTIONS.lookup l).isSome) then "caution"
  else "normal"

/-- Python `str.lower()` (ASCII; all table text is ASCII apart from
characters that `lower` leaves unchanged). -/
def py_lower (s : String) : String := String.mk (s.data.map Char.toLower)

/-- Python `p[0].upper() + p[1:] if p else ""` — capitalize the first character. -/
def cap_first (s : String) : String :=
  match s.data with
  | [] => ""
  | c :: cs => String.mk (c.toUpper :: cs)

/-- The `parts` list built by `interpret` (recommendation_engine.py
lines 274-303): main condition message, other conditions, activity context,
environment context, non-normal status. -/
def summary_parts (labels : List String) (im : List (String × String)) : List String :=
  let cls := classify_labels labels
  let activity := cls.1
  let conditions := cls.2.1
  let environment := cls.2.2.1
  let status := cls.2.2.2
  let main := select_top_label labels
  let p1 : List String :=
    match main with
    | some m =>
      if m ≠ "" ∧ (HEALTH_CONDITION_DESCRIPTIONS.lookup m).isSome then
        [cond_message m (im.lookup m)]
      else []
    | none => []
  let other := match main with
    | some m => conditions.filter (fun c => c ≠ m)
    | none => conditions
  let p2 : List String :=
    if other.isEmpty then []
    else
      let brief := format_list (other.map (fun c => cond_message c (im.lookup c))) "and"
      if brief = "" then [] else [brief]
  let p3 : List String :=
    if activity.isEmpty then []
    else
      let activity_text := format_list activity "and"
      [(ACTIVITY_DESCRIPTIONS.lookup (activity.headD "")).getD
        ("You appear to be " ++ py_lower activity_text)]
  let p4 : List String :=
    if environment.isEmpty then []
    else
      let env_text := format_list (environment.map (fun e => (ENVIRONMENTAL_DESCRIPTIONS.lookup e).getD e)) "and"
      if env_text = "" then [] else [env_text]
  let p5 : List String :=
    if status.isEmpty then []
    else
      let non_normal := status.filter (fun s => ¬ (s = "Normal" ∨ s = "Healthy"))
      if non_normal.isEmpty then []
      else [py_lower (format_list non_normal "and") ++ " health indicators present"]
  p1 ++ p2 ++ p3 ++ p4 ++ p5

/-- The text of the summary after the intro phrase (recommendation_engine.py
lines 305-311): capitalized parts joined by spaces, or the normal fallback. -/
def summary_body (labels : List String) (im : List (String × String)) : String :=
  let parts := summary_parts labels im
  if parts.isEmpty then "everything looks normal."
  else String.intercalate " " (parts.map cap_first)

/-- The `rec_actions` list of `interpret` (recommendation_engine.py lines 313-326):
main label's action first, then deduplicated actions of other conditions,
activities and environment labels, with the generic fallback if empty. -/
def rec_actions (labels : List String) : List String :=
  let cls := classify_labels labels
  let activity := cls.1
  let conditions := cls.2.1
  let environment := cls.2.2.1
  let main := select_top_label labels
  let other := match main with
    | some m => conditions.filter (fun c => c ≠ m)
    | none => conditions
  let base : List String :=
    match main with
    | some m =>
      if m ≠ "" ∧ (RECOMMENDATION_ACTIONS.lookup m).isSome then
        [(RECOMMENDATION_ACTIONS.lookup m).getD ""]
      else []
    | none => []
  let acc := (other ++ activity ++ environment).foldl
    (fun acc cond =>
      match RECOMMENDATION_ACTIONS.lookup cond with
      | some a => if a ≠ "" ∧ ¬ acc.contains a then acc ++ [a] else acc
      | none => acc) base
  if acc.isEmpty then
    ["Keep monitoring your readings and stay hydrated. Take rest if you feel unwell."]
  else acc

/-- Round `a / b` (with `b > 0`) to the nearest integer, ties to even —
the rounding used by Python's fixed-point float formatting. -/
def round_half_even_nat (a b : Nat) : Nat :=
  let fl := a / b
  let r := a % b
  if 2 * r < b then fl
  else if b < 2 * r then fl + 1
  else if fl % 2 = 0 then fl else fl + 1

/-- Decimal digits of a natural number (fuel-driven, fuel `n+1` suffices). -/
def nat_digits_go (fuel n : Nat) : List Char :=
  match fuel with
  | 0 => []
  | f + 1 =>
    if n < 10 then [Char.ofNat (48 + n)]
    else nat_digits_go f (n / 10) ++ [Char.ofNat (48 + n % 10)]

/-- Render a natural number in decimal. -/
def nat_to_string (n : Nat) : String := String.mk (nat_digits_go (n + 1) n)

/-- Python's `f"{x:.{d}f}"` on an exact fraction: round-half-even at `d`
decimals, no decimal point when `d = 0`. -/
def format_fixed (q : Frac) (d : Nat) : String :=
  let m := round_half_even_nat (q.num.natAbs * 10 ^ d) q.den
  let sign := if q.num < 0 then "-" else ""
  let ip := m / 10 ^ d
  let fp := m % 10 ^ d
  if d = 0 then sign ++ nat_to_string ip
  else
    let fs := nat_to_string fp
    sign ++ nat_to_string ip ++ "." ++ (String.mk (List.replicate (d - fs.length) '0') ++ fs)

/-- Method `RecommendationEngine._safe_format`: missing / non-convertible values
render as `"N/A"`. -/
def safe_format (v : Option Frac) (decimals : Nat) : String :=
  match v with
  | none => "N/A"
  | some q => format_fixed q decimals

/-- The optional block of formatted sensor readings in detailed mode
(recommendation_engine.py lines 336-351), including its trailing blank
line when non-empty. -/
def sensor_block (sd : List (String × Frac)) : String :=
  if sd.isEmpty then ""
  else
    let bt := safe_format (sd.lookup "body_temp") 1
    let hr := safe_format (sd.lookup "heart_rate_bpm") 0
    let sp := safe_format (sd.lookup "spo2_pct") 1
    let amb := safe_format (sd.lookup "ambient_temp") 1
    let hu := safe_format (sd.lookup "humidity_pct") 1
    let lines :=
      (if bt ≠ "N/A" then ["Body temp: " ++ bt ++ "°C"] else []) ++
      (if hr ≠ "N/A" then ["Heart rate: " ++ hr ++ " BPM"] else []) ++
      (if sp ≠ "N/A" then ["SpO₂: " ++ sp ++ "%"] else []) ++
      (if amb ≠ "N/A" ∧ hu ≠ "N/A" then ["Ambient: " ++ amb ++ "°C, " ++ hu ++ "%"] else [])
    if lines.isEmpty then "" else String.intercalate "\n" lines ++ "\n\n"

/-- The `recommendation` field of `interpret`'s result: first action in
`"short"` mode, all actions joined by spaces otherwise. -/
def rec_text (labels : List String) (mode : String) : String :=
  if mode = "short" then (rec_actions labels).headD ""
  else String.intercalate " " (rec_actions labels)

/-- What `interpret` appends after the summary to build `full_message`:
the first action in `"short"` mode, otherwise the "What this means" block,
the sensor block and the "Suggested next step" line. -/
def full_tail (labels : List String) (sd : List (String × Frac)) (mode : String) : String :=
  if mode = "short" then " " ++ (rec_actions labels).headD ""
  else "\n\nWhat this means:\n" ++ String.intercalate " " (rec_actions labels) ++ "\n\n" ++
    sensor_block sd ++ "Suggested next step: " ++ (rec_actions labels).headD ""

/-- The dictionary returned by `RecommendationEngine.interpret`. -/
structure RecOut where
  summary : String
  recommendation : String
  priority : String
  full_message : String
deriving DecidableEq, Repr

/-- Method `RecommendationEngine.interpret`.  `intro` is the phrase that the source
draws with `random.choice(INTRO_PHRASES)` — the only non-deterministic input;
both summary variants in the source are `f"{intro} {...}"`, so the summary is
`intro ++ " " ++ body`, and in both modes `full_message` is the summary
followed by intro-independent text. -/
def interpret (intro : String) (predicted_labels : List String)
    (sensor_data : List (String × Frac)) (intensity_map : List (String × String))
    (mode : String) : RecOut :=
  { summary := intro ++ (" " ++ summary_body predicted_labels intensity_map),
    recommendation := rec_text predicted_labels mode,
    priority := priority_level predicted_labels,
    full_message := (intro ++ (" " ++ summary_body predicted_labels intensity_map)) ++
      full_tail predicted_labels sensor_data mode }

/-! ## main.py — ActivityMonitor.predict and the monitoring cycle -/

/-- Field `self.feature_names` of `ActivityMonitor` (main.py lines 132-145). -/
def feature_names : List String :=
  ["body_temp", "ambient_temp", "pressure_hpa", "humidity_pct",
   "accel_x", "accel_y", "accel_z", "gyro_x", "gyro_y", "gyro_z",
   "heart_rate_bpm", "spo2_pct"]

/-- Field `self.label_names` of `ActivityMonitor` (main.py lines 148-173),
24 labels in model-training order. -/
def label_names : List String :=
  ["Resting", "Light activity", "Moderate activity", "High activity",
   "Sleeping", "Walking", "Running", "Sedentary", "Normal", "Stressed",
   "Fatigued", "Dehydrated", "Possible fever", "Low oxygen state",
   "Overexertion", "Early illness indication", "Hot environment",
   "Cold environment", "Humid environment", "Low-pressure environment",
   "Healthy", "Slight abnormality", "Warning", "Critical"]

/-- An element of a numpy object array: a numeric value, or something that
`astype(float)` cannot convert (which raises in the source). -/
inductive Val where
  | num (q : Frac)
  | nonnum
deriving DecidableEq

/-- Raw model output: a 2-D array (list of rows), a 1-D array, or a
non-ndarray scalar. -/
inductive NpOut where
  | arr2 (rows : List (List Val))
  | arr1 (v : List Val)
  | scalar (v : Val)
deriving DecidableEq

/-- Shape normalization of `predict` (main.py lines 216-224): the single row
of a `(1, k)` array, a 1-D array as-is (whether or not its length matches the
label count, both branches keep the vector), anything else raveled /
wrapped. -/
def normalize_shape : NpOut → List Val
  | .arr2 [r] => r
  | .arr2 rows => rows.flatten
  | .arr1 v => v
  | .scalar x => [x]

/-- Conversion `preds.astype(float)`: fails (raises in the source) iff some element is
not numeric. -/
def to_floats : List Val → Option (List Frac)
  | [] => some []
  | .num q :: vs => (to_floats vs).map (fun fs => q :: fs)
  | .nonnum :: _ => none

/-- Test `(preds_float >= 0.0) & (preds_float <= 1.0)` for one entry. -/
def in_unit (x : Frac) : Bool := Frac.le ⟨0, 1⟩ x && Frac.le x ⟨1, 1⟩

/-- numpy `astype(int)` on a float: truncation toward zero. -/
def astype_int (x : Frac) : Int := Int.tdiv x.num x.den

/-- Binarization on successfully converted floats (main.py lines 229-232):
threshold at `>= 0.5` when any entry lies in `[0, 1]`, else direct integer
cast. -/
def binarize_floats (fs : List Frac) : List Int :=
  if fs.any in_unit then fs.map (fun x => if Frac.le ⟨1, 2⟩ x then 1 else 0)
  else fs.map astype_int

/-- The whole `try`/`except` conversion block of `predict` (main.py
lines 227-234): an `astype(float)` failure yields `np.zeros(len(label_names))`. -/
def to_binary (vs : List Val) (n : Nat) : List Int :=
  match to_floats vs with
  | some fs => binarize_floats fs
  | none => List.replicate n 0

/-- Length reconciliation (main.py lines 236-242): right-pad with zeros when
short, truncate when long. -/
def reconcile (b : List Int) : List Int :=
  if b.length ≠ label_names.length then
    if b.length < label_names.length then
      b ++ List.replicate (label_names.length - b.length) 0
    else b.take label_names.length
  else b

/-- Extraction `active_labels = [label_names[i] for i, v in enumerate(binary_preds) if int(v) == 1]`. -/
def active_labels_of (b : List Int) : List String :=
  ((label_names.zip b).filter (fun p => p.2 == 1)).map Prod.fst

/-- The fields of the result dictionary of `predict` that the claims are
about (the timestamp, an external clock read, is omitted; `sensor_data` is
echoed unchanged into the result and into `interpret`). -/
structure PredictResult where
  active_labels : List String
  num_active : Nat
  all_predictions : List (String × Int)
  recommendation : RecOut
deriving DecidableEq

/-- Method `ActivityMonitor.predict` (main.py lines 200-268).  The scaler and model
are the opaque external collaborators of the spec; each may raise, which the
source does NOT catch — only the conversion block has a `try`/`except`.
The final recommendation `try`/`except` never fires here because the embedded
`interpret` is total, as is the source's on string inputs. -/
def predict (intro : String) (scaler : List Frac → Except String (List Frac))
    (model : List Frac → Except String NpOut)
    (sensor_data : List (String × Frac)) : Except String PredictResult :=
  if (feature_names.filter (fun k => (sensor_data.lookup k).isNone)).isEmpty = false then
    Except.error "Missing sensor keys"
  else
    match scaler (feature_names.map (fun k => (sensor_data.lookup k).getD ⟨0, 1⟩)) with
    | .error e => .error e
    | .ok xs =>
      match model xs with
      | .error e => .error e
      | .ok raw =>
        .ok { active_labels := active_labels_of (reconcile (to_binary (normalize_shape raw) label_names.length)),
              num_active := (active_labels_of (reconcile (to_binary (normalize_shape raw) label_names.length))).length,
              all_predictions := label_names.zip (reconcile (to_binary (normalize_shape raw) label_names.length)),
              recommendation := interpret intro
                (active_labels_of (reconcile (to_binary (normalize_shape raw) label_names.length)))
                sensor_data [] "detailed" }

/-- The prediction step of one `monitor_continuous` cycle (main.py
lines 344-350): an exception from `predict` is caught, the cycle is skipped
(`none`), and the loop continues — no result and no recommendation are
produced for that cycle. -/
def monitor_cycle (intro : String) (scaler : List Frac → Except String (List Frac))
    (model : List Frac → Except String NpOut)
    (sensor_data : List (String × Frac)) : Option PredictResult :=
  match predict intro scaler model sensor_data with
  | .ok r => some r
  | .error _ => none

/-- A fully populated sensor reading used as a concrete test input. -/
def sample_sensor : List (String × Frac) :=
  [("body_temp", fdec 371 1), ("ambient_temp", fdec 25 0), ("pressure_hpa", fdec 1013 0),
   ("humidity_pct", fdec 60 0), ("accel_x", fdec 0 0), ("accel_y", fdec 0 0),
   ("accel_z", fdec 1 0), ("gyro_x", fdec 0 0), ("gyro_y", fdec 0 0),
   ("gyro_z", fdec 0 0), ("heart_rate_bpm", fdec 72 0), ("spo2_pct", fdec 98 0)]

/-- A scaler that succeeds and returns its input. -/
def ok_scaler : List Frac → Except String (List Frac) := fun xs => .ok xs

/-- A model whose invocation raises. -/
def fail_model : List Frac → Except String NpOut := fun _ => .error "model failure"

/-- A model returning the integral raw output `[2, 3]`. -/
def model_23 : List Frac → Except String NpOut :=
  fun _ => .ok (.arr1 [.num ⟨2, 1⟩, .num ⟨3, 1⟩])

/-- A model returning an object array that `astype(float)` cannot convert. -/
def badval_model : List Frac → Except String NpOut := fun _ => .ok (.arr1 [.nonnum])

/-- A fixed intro phrase (first element of `INTRO_PHRASES`). -/
def intro0 : String := "From your readings,"

/-! ## sensor_manager.py — buffer, defaults, and line parser -/

/-- Field `self.feature_cols` of `SensorManager` (sensor_manager.py lines 57-62). -/
def feature_cols : List String :=
  ["body_temp", "ambient_temp", "pressure_hpa", "humidity_pct",
   "accel_x", "accel_y", "accel_z", "gyro_x", "gyro_y", "gyro_z",
   "heart_rate_bpm", "spo2_pct"]

/-- The `defaults` table inside `read_all_sensors` (sensor_manager.py
lines 267-280), exact decimal constants. -/
def SENSOR_DEFAULTS : List (String × Frac) :=
  [("body_temp", fdec 3818543053481313 14),
   ("ambient_temp", fdec 4065328021937469 14),
   ("pressure_hpa", fdec 11180779043417701 13),
   ("humidity_pct", fdec 22290509612701151 16),
   ("accel_x", fdec (-29304472197953389) 16),
   ("accel_y", fdec 152609944889852 14),
   ("accel_z", fdec (-345767613961922) 14),
   ("gyro_x", fdec (-19249125756855392) 14),
   ("gyro_y", fdec 22895306166720195 14),
   ("gyro_z", fdec 10431422945069176 14),
   ("heart_rate_bpm", fdec 10085761985373327 14),
   ("spo2_pct", fdec 504721417330743 13)]

/-- Lookup `defaults.get(feature, 0.0)`. -/
def sensor_defaults (feature : String) : Frac := (SENSOR_DEFAULTS.lookup feature).getD ⟨0, 1⟩

/-- The sensor buffer: each metric maps to its latest stored float, or to
nothing if never (successfully) observed — the buffer is initialized with
`None` for every feature column. -/
def Buf := String → Option Frac

/-- The initial buffer (all `None`). -/
def init_buf : Buf := fun _ => none

/-- One iteration of `_buffer_updater_thread` (sensor_manager.py
lines 222-231) applied to a dequeued item `(metric, value)`: stored only if
the metric is a feature column and `float(value)` succeeded (`none` models a
`ValueError`, which the source swallows with `pass`). -/
def apply_update (buf : Buf) (u : String × Option Frac) : Buf :=
  if feature_cols.contains u.1 then
    match u.2 with
    | some v => fun f => if f = u.1 then some v else buf f
    | none => buf
  else buf

/-- The buffer after a sequence of dequeued updates, starting empty. -/
def run_updates (us : List (String × Option Frac)) : Buf :=
  us.foldl apply_update init_buf

/-- Method `SensorManager.read_all_sensors` (sensor_manager.py lines 236-285):
every feature column, latest value or its static default. -/
def read_all_sensors (buf : Buf) : List (String × Frac) :=
  feature_cols.map (fun f => (f, (buf f).getD (sensor_defaults f)))

/-- Method `SensorManager.get_sensor_status` (sensor_manager.py lines 287-298):
`True` iff the metric has been stored. -/
def get_sensor_status (buf : Buf) : List (String × Bool) :=
  feature_cols.map (fun f => (f, (buf f).isSome))

/-- A metric was (successfully) observed somewhere in an update sequence. -/
def observed (us : List (String × Option Frac)) (f : String) : Bool :=
  us.any (fun u => u.1 == f && u.2.isSome)

/-! ### `_parse_line` — regex machinery over character lists -/

/-- Python regex `\s` / `str.strip` whitespace (ASCII). -/
def is_space_py (c : Char) : Bool :=
  c = ' ' ∨ c = '\t' ∨ c = '\n' ∨ c = '\r' ∨ c = '\x0b' ∨ c = '\x0c'

/-- Python `line.strip()`. -/
def pstrip (l : List Char) : List Char :=
  ((l.dropWhile is_space_py).reverse.dropWhile is_space_py).reverse

/-- Match the number pattern `[+-]?\d+\.?\d*` (sign only when `allowSign`,
as the heart-rate/SpO2 patterns have no sign) at the head of the input,
greedily; returns the matched characters and the rest.  Greedy matching
agrees with the regex engine here because no later element of the pattern
can consume a digit or a dot. -/
def num_at (allowSign : Bool) (cs : List Char) : Option (List Char × List Char) :=
  let sgn : List Char × List Char :=
    match cs with
    | c :: rest => if allowSign ∧ (c = '+' ∨ c = '-') then ([c], rest) else ([], cs)
    | [] => ([], [])
  let ds := sgn.2.takeWhile Char.isDigit
  let r2 := sgn.2.dropWhile Char.isDigit
  if ds.isEmpty then none
  else
    match r2 with
    | '.' :: r3 => some (sgn.1 ++ ds ++ '.' :: r3.takeWhile Char.isDigit, r3.dropWhile Char.isDigit)
    | _ => some (sgn.1 ++ ds, r2)

/-- Search `re.search` / first `re.findall` hit for the number pattern: leftmost
position that matches. -/
def search_num (allowSign : Bool) : List Char → Option (List Char)
  | [] => none
  | c :: cs =>
    match num_at allowSign (c :: cs) with
    | some p => some p.1
    | none => search_num allowSign cs

/-- Pattern `re.match` of the whole-line number (the DS18B20 rule): the
whole line is a number with surrounding whitespace. -/
def full_line_num (l : List Char) : Option (List Char) :=
  match num_at true (l.dropWhile is_space_py) with
  | some p => if p.2.all is_space_py then some p.1 else none
  | none => none

/-- Python `needle in hay` for strings. -/
def contains_sub (needle : List Char) : List Char → Bool
  | [] => needle.isEmpty
  | c :: t => needle.isPrefixOf (c :: t) || contains_sub needle t

/-- Try the axis pattern `{axis}=\s*([+-]?\d+\.?\d*){suf}` at the head of the
input. -/
def axis_at (axis : Char) (suf : List Char) (cs : List Char) : Option (List Char) :=
  match cs with
  | a :: '=' :: rest =>
    if a = axis then
      match num_at true (rest.dropWhile is_space_py) with
      | some p => if suf.isPrefixOf p.2 then some p.1 else none
      | none => none
    else none
  | _ => none

/-- Search `re.search` for the axis pattern: leftmost matching position. -/
def search_axis (axis : Char) (suf : List Char) : List Char → Option (List Char)
  | [] => none
  | c :: cs =>
    match axis_at axis suf (c :: cs) with
    | some m => some m
    | none => search_axis axis suf cs

/-- One axis entry of the MPU6050 loops: a singleton on a match, nothing
otherwise. -/
def axis_entry (name : String) (axis : Char) (suf l : List Char) : List (String × String) :=
  match search_axis axis suf l with
  | some m => [(name, String.mk m)]
  | none => []

/-- The `Accel:` rule body (sensor_manager.py lines 164-169): X, Y, Z in
order, each appended only when its pattern matches; the rule returns
unconditionally. -/
def axes_accel (l : List Char) : List (String × String) :=
  axis_entry "accel_x" 'X' ['g'] l ++ axis_entry "accel_y" 'Y' ['g'] l ++
    axis_entry "accel_z" 'Z' ['g'] l

/-- The `Gyro:` rule body (sensor_manager.py lines 172-177). -/
def axes_gyro (l : List Char) : List (String × String) :=
  axis_entry "gyro_x" 'X' ['°', '/', 's'] l ++ axis_entry "gyro_y" 'Y' ['°', '/', 's'] l ++
    axis_entry "gyro_z" 'Z' ['°', '/', 's'] l

/-- First applicable rule, or the default result. -/
def orD (o : Option (List (String × String))) (k : List (String × String)) :
    List (String × String) :=
  match o with
  | some r => r
  | none => k

/-- Method `SensorManager._parse_line` (sensor_manager.py lines 131-193).  Each rule
falls through to the next when its outer condition or its inner pattern fails
(the source only `return`s inside a successful inner match), except the
`Accel:`/`Gyro:` rules, which return their (possibly empty) collected axes
unconditionally.  Total by construction: the source never raises either. -/
def parse_line (sensor line : String) : List (String × String) :=
  let l := pstrip line.data
  orD (if sensor == "ds18b20" then (full_line_num l).map (fun m => [("body_temp", String.mk m)]) else none)
  (orD (if contains_sub "Temperature:".data l && contains_sub "°C".data l then
          (search_num true l).map (fun m => [("ambient_temp", String.mk m)]) else none)
  (orD (if "Pressure:".data.isPrefixOf l then
          (search_num true l).map (fun m => [("pressure_hpa", String.mk m)]) else none)
  (orD (if contains_sub "Humidity:".data l then
          (search_num true l).map (fun m => [("humidity_pct", String.mk m)]) else none)
  (orD (if "Accel:".data.isPrefixOf l then some (axes_accel l) else none)
  (orD (if "Gyro:".data.isPrefixOf l then some (axes_gyro l) else none)
  (orD (if contains_sub "Heart Rate".data l then
          (search_num false l).map (fun m => [("heart_rate_bpm", String.mk m)]) else none)
  (orD (if contains_sub "SpO2".data l || contains_sub "SpO2 Level".data l then
          (search_num false l).map (fun m => [("spo2_pct", String.mk m)]) else none)
  [])))))))

/-- A line is recognized when some rule of `_parse_line` applies: its guard
holds and (for the non-axis rules) its inner pattern matches. -/
def recognized (sensor line : String) : Bool :=
  let l := pstrip line.data
  (sensor == "ds18b20" && (full_line_num l).isSome) ||
  (contains_sub "Temperature:".data l && contains_sub "°C".data l && (search_num true l).isSome) ||
  ("Pressure:".data.isPrefixOf l && (search_num true l).isSome) ||
  (contains_sub "Humidity:".data l && (search_num true l).isSome) ||
  "Accel:".data.isPrefixOf l ||
  "Gyro:".data.isPrefixOf l ||
  (contains_sub "Heart Rate".data l && (search_num false l).isSome) ||
  ((contains_sub "SpO2".data l || contains_sub "SpO2 Level".data l) && (search_num false l).isSome)

/-! ## Helper lemmas -/

/-- The result of Python's `max` scan is the seed or one of the scanned
elements. -/
theorem select_aux_mem (xs : List String) : ∀ b, select_aux b xs = b ∨ select_aux b xs ∈ xs := by
  induction xs with
  | nil => intro b; exact Or.inl rfl
  | cons l ls ih =>
    intro b
    unfold select_aux
    rcases ih (if prio b < prio l then l else b) with h | h
    · rw [h]
      split
      · exact Or.inr (List.mem_cons_self _ _)
      · exact Or.inl rfl
    · exact Or.inr (List.mem_cons_of_mem _ h)

/-- The result of the `max` scan has a priority at least that of the seed and
of every scanned element. -/
theorem select_aux_le (xs : List String) : ∀ b y, (y = b ∨ y ∈ xs) → prio y ≤ prio (select_aux b xs) := by
  induction xs with
  | nil =>
    intro b y h
    rcases h with rfl | h
    · exact le_refl _
    · cases h
  | cons l ls ih =>
    intro b y h
    unfold select_aux
    have hb : prio b ≤ prio (if prio b < prio l then l else b) := by
      split
      · next hlt => exact le_of_lt hlt
      · exact le_refl _
    have hl : prio l ≤ prio (if prio b < prio l then l else b) := by
      split
      · exact le_refl _
      · next hge => exact le_of_not_lt hge
    rcases h with rfl | h
    · exact le_trans hb (ih _ _ (Or.inl rfl))
    · rcases List.mem_cons.mp h with rfl | h
      · exact le_trans hl (ih _ _ (Or.inl rfl))
      · exact ih _ _ (Or.inr h)

/-- The `max` scan returns the FIRST element attaining the maximal priority:
scanning for the first element with at-least-maximal priority finds exactly
the scan's result. -/
theorem select_aux_first (xs : List String) : ∀ b,
    List.find? (fun y => decide (prio (select_aux b xs) ≤ prio y)) (b :: xs) =
      some (select_aux b xs) := by
  induction xs with
  | nil =>
    intro b
    unfold select_aux
    simp [List.find?_cons]
  | cons l ls ih =>
    intro b
    unfold select_aux
    by_cases hbl : prio b < prio l
    · rw [if_pos hbl]
      have hlr : prio l ≤ prio (select_aux l ls) := select_aux_le ls l l (Or.inl rfl)
      have hfail : (decide (prio (select_aux l ls) ≤ prio b)) = false := by
        simp only [decide_eq_false_iff_not, not_le]
        exact lt_of_lt_of_le hbl hlr
      simp only [List.find?_cons, hfail]
      exact ih l
    · rw [if_neg hbl]
      by_cases hrb : prio (select_aux b ls) ≤ prio b
      · have hpos : (decide (prio (select_aux b ls) ≤ prio b)) = true := decide_eq_true hrb
        have h2 := ih b
        simp only [List.find?_cons, hpos] at h2
        simp only [List.find?_cons, hpos]
        exact h2
      · have hneg : (decide (prio (select_aux b ls) ≤ prio b)) = false := by
          simp only [decide_eq_false_iff_not]
          exact hrb
        have hnegl : (decide (prio (select_aux b ls) ≤ prio l)) = false := by
          simp only [decide_eq_false_iff_not, not_le]
          exact lt_of_le_of_lt (le_of_not_lt hbl) (not_le.mp hrb)
        have h2 := ih b
        simp only [List.find?_cons, hneg] at h2
        simp only [List.find?_cons, hneg, hnegl]
        exact h2

/-- A selected top label is one of the input labels. -/
theorem select_top_mem (labels : List String) (x : String)
    (h : select_top_label labels = some x) : x ∈ labels := by
  cases labels with
  | nil => cases h
  | cons a ls =>
    simp only [select_top_label, Option.some.injEq] at h
    rcases select_aux_mem ls a with h' | h'
    · rw [← h, h']
      exact List.mem_cons_self _ _
    · rw [← h]
      exact List.mem_cons_of_mem _ h'

/-- Length reconciliation always yields exactly the label count. -/
theorem reconcile_length (b : List Int) : (reconcile b).length = label_names.length := by
  unfold reconcile
  split
  · split
    · next h1 h2 =>
      simp only [List.length_append, List.length_replicate]
      omega
    · next h1 h2 =>
      simp only [List.length_take]
      omega
  · next h1 => omega

/-- Reconciliation only keeps entries or adds zeros. -/
theorem mem_reconcile {x : Int} {b : List Int} (h : x ∈ reconcile b) : x ∈ b ∨ x = 0 := by
  unfold reconcile at h
  split at h
  · split at h
    · rcases List.mem_append.mp h with h' | h'
      · exact Or.inl h'
      · exact Or.inr (List.mem_replicate.mp h').2
    · exact Or.inl (List.mem_of_mem_take h)
  · exact Or.inl h

/-- Looking up a key of a tabulated association list built over a key list. -/
theorem lookup_map_self {β : Type} (g : String → β) :
    ∀ (l : List String) (f : String), f ∈ l →
      (l.map (fun x => (x, g x))).lookup f = some (g f) := by
  intro l
  induction l with
  | nil => intro f hf; cases hf
  | cons a t ih =>
    intro f hf
    by_cases h : f = a
    · subst h
      simp [List.lookup]
    · have hbeq : (f == a) = false := beq_eq_false_iff_ne.mpr h
      have hmem : f ∈ t := by
        rcases List.mem_cons.mp hf with h' | h'
        · exact absurd h' h
        · exact h'
      simp [List.lookup, hbeq, ih f hmem]

/-- After a fold of buffer updates, a feature reads as unobserved exactly
when it started unobserved and no applied update stored it. -/
theorem run_updates_apply : ∀ (us : List (String × Option Frac)) (buf : Buf) (f : String),
    f ∈ feature_cols →
    ((us.foldl apply_update buf) f = none ↔ (buf f = none ∧ observed us f = false)) := by
  intro us
  induction us with
  | nil =>
    intro buf f hf
    simp [observed]
  | cons u us ih =>
    intro buf f hf
    rw [List.foldl_cons, ih (apply_update buf u) f hf]
    have hobs : observed (u :: us) f = ((u.1 == f && u.2.isSome) || observed us f) := by
      simp [observed, List.any_cons]
    rw [hobs]
    have hsub : (apply_update buf u f = none) ↔
        (buf f = none ∧ (u.1 == f && u.2.isSome) = false) := by
      unfold apply_update
      cases hc : feature_cols.contains u.1 with
      | true =>
        rw [if_pos rfl]
        cases h2 : u.2 with
        | none => simp
        | some v =>
          by_cases hf2 : f = u.1
          · have : (u.1 == f) = true := beq_iff_eq.mpr hf2.symm
            simp [hf2, this]
          · have : (u.1 == f) = false := beq_eq_false_iff_ne.mpr (fun h => hf2 h.symm)
            simp [hf2, this]
      | false =>
        rw [if_neg (by simp)]
        have : (u.1 == f) = false := by
          apply beq_eq_false_iff_ne.mpr
          intro h
          have hmemc : feature_cols.contains f = true := List.elem_eq_true_of_mem hf
          rw [h, hmemc] at hc
          cases hc
        simp [this]
    rw [hsub, Bool.or_eq_false_iff]
    tauto

/-- Unknown labels (present in none of the four description tables) are filed
under conditions by `_classify_labels`. -/
theorem classify_unknown_mem : ∀ (labels : List String) (l : String),
    l ∈ labels →
    ACTIVITY_DESCRIPTIONS.lookup l = none →
    HEALTH_CONDITION_DESCRIPTIONS.lookup l = none →
    ENVIRONMENTAL_DESCRIPTIONS.lookup l = none →
    HEALTH_STATUS_DESCRIPTIONS.lookup l = none →
    l ∈ (classify_labels labels).2.1 := by
  intro labels
  induction labels with
  | nil => intro l h; cases h
  | cons a ls ih =>
    intro l hl h1 h2 h3 h4
    rcases List.mem_cons.mp hl with rfl | hmem
    · simp only [classify_labels, h1, h2, h3, h4, Option.isSome_none, Bool.false_eq_true,
        if_false]
      exact List.mem_cons_self _ _
    · have hin := ih l hmem h1 h2 h3 h4
      simp only [classify_labels]
      split_ifs
      · exact hin
      · exact List.mem_cons_of_mem _ hin
      · exact hin
      · exact hin
      · exact List.mem_cons_of_mem _ hin

/-- The number pattern cannot match at a character that is neither a digit
nor a sign. -/
theorem num_at_none (allowSign : Bool) (c : Char) (cs : List Char)
    (h1 : c.isDigit = false) (h2 : c ≠ '+') (h3 : c ≠ '-') :
    num_at allowSign (c :: cs) = none := by
  have hsgn : ¬ (allowSign = true ∧ (c = '+' ∨ c = '-')) := by
    rintro ⟨-, h | h⟩
    · exact h2 h
    · exact h3 h
  simp only [num_at, if_neg hsgn, List.takeWhile_cons, h1, Bool.false_eq_true, if_false,
    List.isEmpty_nil, if_true]

/-- The whole-line number pattern cannot match a line starting with a
character that is not whitespace, a digit, or a sign. -/
theorem full_line_num_head_none (c : Char) (t : List Char)
    (hs : is_space_py c = false) (h1 : c.isDigit = false) (h2 : c ≠ '+') (h3 : c ≠ '-') :
    full_line_num (c :: t) = none := by
  simp only [full_line_num, List.dropWhile_cons, hs, Bool.false_eq_true, if_false,
    num_at_none true c t h1 h2 h3]

/-- A successful prefix test against a cons pattern exposes the head of the
input. -/
theorem isPrefixOf_cons_ex (p : Char) (ps l : List Char)
    (h : (p :: ps).isPrefixOf l = true) : ∃ t, l = p :: t ∧ ps.isPrefixOf t = true := by
  cases l with
  | nil => simp [List.isPrefixOf] at h
  | cons a t =>
    simp only [List.isPrefixOf, Bool.and_eq_true, beq_iff_eq] at h
    exact ⟨t, by rw [h.1], h.2⟩

/-- Prefix tests with different head characters fail. -/
theorem isPrefixOf_head_ne {p a : Char} (ps t : List Char) (h : p ≠ a) :
    (p :: ps).isPrefixOf (a :: t) = false := by
  simp [List.isPrefixOf, h]

/-- A rule of `_parse_line` whose guard-and-pattern conjunction fails
produces nothing. -/
theorem ite_map_none {c : Bool} {o : Option (List Char)}
    {f : List Char → List (String × String)}
    (h : (c && o.isSome) = false) :
    (if c = true then o.map f else none) = none := by
  rcases Bool.and_eq_false_iff.mp h with h | h
  · simp [h]
  · cases ho : o with
    | none => simp
    | some m => rw [ho] at h; cases h

/-! ## Claim theorems -/

/-- Claim C6: for every non-empty list of labels the selected main label is
the one with the highest `LABEL_PRIORITY` value (absent labels counting as
priority 0, via `prio`), ties broken in favor of the first maximal label in
list order (the first label with at-least-maximal priority is the selected
one); the empty list selects no label; and for
`["Critical", "Stressed", "Walking"]` with priorities 100/65/30 the main
label is `"Critical"`. -/
theorem c6_main_label : ∀ labels : List String,
    (select_top_label labels = none ↔ labels = []) ∧
    (∀ x, select_top_label labels = some x →
      x ∈ labels ∧ (∀ y ∈ labels, prio y ≤ prio x) ∧
      labels.find? (fun y => decide (prio x ≤ prio y)) = some x) ∧
    select_top_label ["Critical", "Stressed", "Walking"] = some "Critical" ∧
    prio "Critical" = 100 ∧ prio "Stressed" = 65 ∧ prio "Walking" = 30 := by
  intro labels
  refine ⟨?_, ?_, by decide, by decide, by decide, by decide⟩
  · cases labels with
    | nil => simp [select_top_label]
    | cons a ls => simp [select_top_label]
  · intro x hx
    cases labels with
    | nil => cases hx
    | cons a ls =>
      simp only [select_top_label, Option.some.injEq] at hx
      subst hx
      refine ⟨?_, ?_, select_aux_first ls a⟩
      · rcases select_aux_mem ls a with h' | h'
        · rw [h']
          exact List.mem_cons_self _ _
        · exact List.mem_cons_of_mem _ h'
      · intro y hy
        rcases List.mem_cons.mp hy with h' | h'
        · subst h'
          exact select_aux_le ls _ _ (Or.inl rfl)
        · exact select_aux_le ls a y (Or.inr h')

/-- Witness for C6 at the concrete label set of the claim. -/
theorem c6_main_label_witness :
    "Critical" ∈ ["Critical", "Stressed", "Walking"] ∧
    (∀ y ∈ ["Critical", "Stressed", "Walking"], prio y ≤ prio "Critical") ∧
    ["Critical", "Stressed", "Walking"].find?
      (fun y => decide (prio "Critical" ≤ prio y)) = some "Critical" :=
  (c6_main_label ["Critical", "Stressed", "Walking"]).2.1 "Critical" (by decide)

/-- Claim C8 (determinism): with fixed labels, sensor data, intensity map and
mode, two runs of `interpret` — whose only non-deterministic input is the
intro phrase — agree on the priority level and on the ordered action text,
and their summaries and full messages differ only in the intro phrase at the
start of the summary: both summaries are the respective intro followed by one
common text, and each full message is that run's summary followed by one
common text.  The label partition (`classify_labels`) and the main label
(`select_top_label`) are pure functions of the labels alone, so they are
identical across the two runs by construction. -/
theorem c8_interpret_deterministic : ∀ (intro1 intro2 : String) (labels : List String)
    (sd : List (String × Frac)) (im : List (String × String)) (mode : String),
    (interpret intro1 labels sd im mode).priority = (interpret intro2 labels sd im mode).priority ∧
    (interpret intro1 labels sd im mode).recommendation =
      (interpret intro2 labels sd im mode).recommendation ∧
    ∃ s t : String,
      (interpret intro1 labels sd im mode).summary = intro1 ++ s ∧
      (interpret intro2 labels sd im mode).summary = intro2 ++ s ∧
      (interpret intro1 labels sd im mode).full_message =
        (interpret intro1 labels sd im mode).summary ++ t ∧
      (interpret intro2 labels sd im mode).full_message =
        (interpret intro2 labels sd im mode).summary ++ t :=
  fun _ _ labels sd im mode =>
    ⟨rfl, rfl, " " ++ summary_body labels im, full_tail labels sd mode, rfl, rfl, rfl, rfl⟩

/-- Claim C10: for every mode other than the exact string "short" the
detailed composition path is taken — the recommendation text is all
applicable actions joined with spaces, and the full message is the summary
followed by the "What this means:" block, the sensor block, and the
"Suggested next step:" line.  The embedded `interpret` is total (the source
performs no validation of `mode` and cannot raise on it). -/
theorem c10_nonshort_mode : ∀ (intro : String) (labels : List String)
    (sd : List (String × Frac)) (im : List (String × String)) (mode : String),
    mode ≠ "short" →
    (interpret intro labels sd im mode).recommendation =
      String.intercalate " " (rec_actions labels) ∧
    (interpret intro labels sd im mode).full_message =
      (interpret intro labels sd im mode).summary ++
        ("\n\nWhat this means:\n" ++ String.intercalate " " (rec_actions labels) ++ "\n\n" ++
          sensor_block sd ++ "Suggested next step: " ++ (rec_actions labels).headD "") := by
  intro i labels sd im mode h
  constructor
  · show rec_text labels mode = _
    unfold rec_text
    rw [if_neg h]
  · show (i ++ (" " ++ summary_body labels im)) ++ full_tail labels sd mode = _
    unfold full_tail
    rw [if_neg h]
    rfl

/-- Witness for C10 at a misspelled mode string. -/
theorem c10_nonshort_mode_witness :
    (interpret intro0 ["Stressed"] sample_sensor [] "detaled").recommendation =
      String.intercalate " " (rec_actions ["Stressed"]) ∧
    (interpret intro0 ["Stressed"] sample_sensor [] "detaled").full_message =
      (interpret intro0 ["Stressed"] sample_sensor [] "detaled").summary ++
        ("\n\nWhat this means:\n" ++ String.intercalate " " (rec_actions ["Stressed"]) ++ "\n\n" ++
          sensor_block sample_sensor ++ "Suggested next step: " ++
          (rec_actions ["Stressed"]).headD "") :=
  c10_nonshort_mode intro0 ["Stressed"] sample_sensor [] "detaled" (by decide)

/-- Claim C4 (binarization): if any entry of the flattened output lies in
`[0, 1]` the whole vector is thresholded at `>= 0.5`, otherwise every entry
is cast directly to an integer; raw output `[0.2, 0.8, 0.5]` with 3 labels
yields `[0, 1, 1]` and raw output `[2, 0, 1]` yields `[1, 0, 1]`. -/
theorem c4_binarization : ∀ fs : List Frac,
    (fs.any in_unit = true →
      binarize_floats fs = fs.map (fun x => if Frac.le ⟨1, 2⟩ x then 1 else 0)) ∧
    (fs.any in_unit = false → binarize_floats fs = fs.map astype_int) ∧
    to_binary (normalize_shape (.arr1 [.num (fdec 2 1), .num (fdec 8 1), .num (fdec 5 1)])) 3 =
      [0, 1, 1] ∧
    to_binary (normalize_shape (.arr1 [.num (fdec 2 0), .num (fdec 0 0), .num (fdec 1 0)])) 3 =
      [1, 0, 1] := by
  intro fs
  refine ⟨fun h => ?_, fun h => ?_, by decide, by decide⟩
  · unfold binarize_floats
    rw [if_pos h]
  · unfold binarize_floats
    rw [if_neg (by simp [h])]

/-- Witness for C4: both binarization paths exercised on concrete vectors. -/
theorem c4_binarization_witness :
    binarize_floats [fdec 2 1, fdec 8 1, fdec 5 1] =
      [fdec 2 1, fdec 8 1, fdec 5 1].map (fun x => if Frac.le ⟨1, 2⟩ x then 1 else 0) ∧
    binarize_floats [fdec 2 0, fdec 3 0] = [fdec 2 0, fdec 3 0].map astype_int :=
  ⟨(c4_binarization [fdec 2 1, fdec 8 1, fdec 5 1]).1 (by decide),
   (c4_binarization [fdec 2 0, fdec 3 0]).2.1 (by decide)⟩

/-- Counterexample to claim C3: the unknown label "Mystery label" is
condition-class for `_classify_labels`, yet `interpret` assigns priority
level "normal", not "caution" — the caution test checks membership in the
known-condition table, not the classifier's partition. -/
theorem c3_unknown_label_counterexample :
    (classify_labels ["Mystery label"]).2.1 = ["Mystery label"] ∧
    (interpret intro0 ["Mystery label"] [] [] "detailed").priority = "normal" ∧
    "normal" ≠ "caution" :=
  ⟨by decide, by decide, by decide⟩

/-- Claim C3 as amended: the priority cascade is `critical` when "Critical"
is present (the source's extra `main_label == "Critical"` disjunct is
redundant because a selected top label is always a member), else `warning`
on the fixed urgent subset, else `caution` when some label belongs to the
seven KNOWN condition labels — unknown labels do not trigger `caution`,
although the classifier partitions them as conditions — else `normal`. -/
theorem c3_priority_cascade : ∀ labels : List String,
    priority_level labels = spec_priority_level labels ∧
    (∀ l ∈ labels,
      ACTIVITY_DESCRIPTIONS.lookup l = none →
      HEALTH_CONDITION_DESCRIPTIONS.lookup l = none →
      ENVIRONMENTAL_DESCRIPTIONS.lookup l = none →
      HEALTH_STATUS_DESCRIPTIONS.lookup l = none →
      l ∈ (classify_labels labels).2.1) := by
  intro labels
  refine ⟨?_, fun l hl h1 h2 h3 h4 => classify_unknown_mem labels l hl h1 h2 h3 h4⟩
  have key : (select_top_label labels = some "Critical" ∨ "Critical" ∈ labels) ↔
      "Critical" ∈ labels :=
    ⟨fun h => h.elim (fun h1 => select_top_mem labels _ h1) id, Or.inr⟩
  unfold priority_level spec_priority_level
  exact if_congr key rfl rfl

/-- Witness for C3 (amended) at the unknown label "Mystery label". -/
theorem c3_priority_cascade_witness :
    priority_level ["Mystery label"] = spec_priority_level ["Mystery label"] ∧
    "Mystery label" ∈ (classify_labels ["Mystery label"]).2.1 :=
  ⟨(c3_priority_cascade ["Mystery label"]).1,
   (c3_priority_cascade ["Mystery label"]).2 "Mystery label" (by decide)
     (by decide) (by decide) (by decide) (by decide)⟩

/-- Counterexample to claim C2: a model returning the raw output `[2, 3]`
(no entry in `[0, 1]`, so the direct-cast path is taken) makes `predict`
store the value 3 — neither 0 nor 1 — under "Light activity" in
`all_predictions`. -/
theorem c2_nonbinary_counterexample :
    (predict intro0 ok_scaler model_23 sample_sensor).toOption.map
      (fun r => r.all_predictions.lookup "Light activity") = some (some 3) ∧
    ¬ ((3 : Int) = 0 ∨ (3 : Int) = 1) :=
  ⟨by decide, by decide⟩

/-- Claim C2 as amended: the entries of the binary vector stored in
`all_predictions` are all 0 or 1 PROVIDED the flattened output converts to
floats with at least one entry in `[0, 1]` (probability path) or fails to
convert at all (zero-vector fallback); on the direct-cast path the entries
are arbitrary truncated integers (see the counterexample). -/
theorem c2_binary_entries : ∀ (vs : List Val) (x : Int),
    ((to_floats vs).all (fun fs => fs.any in_unit)) = true →
    x ∈ reconcile (to_binary vs label_names.length) → x = 0 ∨ x = 1 := by
  intro vs x hprob hmem
  rcases mem_reconcile hmem with hmem' | rfl
  · unfold to_binary at hmem'
    cases hf : to_floats vs with
    | none =>
      rw [hf] at hmem'
      exact Or.inl (List.mem_replicate.mp hmem').2
    | some fs =>
      rw [hf] at hmem' hprob
      simp only [Option.all] at hprob
      have hmem2 : x ∈ binarize_floats fs := hmem'
      unfold binarize_floats at hmem2
      rw [if_pos hprob] at hmem2
      obtain ⟨a, -, ha⟩ := List.mem_map.mp hmem2
      by_cases hle : Frac.le ⟨1, 2⟩ a = true
      · rw [if_pos hle] at ha
        exact Or.inr ha.symm
      · rw [if_neg hle] at ha
        exact Or.inl ha.symm
  · exact Or.inl rfl

/-- Witness for C2 (amended): a probability-path output whose stored entries
are checked to be binary. -/
theorem c2_binary_entries_witness :
    ((to_floats [Val.num (fdec 0 0), Val.num (fdec 5 0)]).all (fun fs => fs.any in_unit)) = true ∧
    (1 : Int) ∈ reconcile (to_binary [Val.num (fdec 0 0), Val.num (fdec 5 0)] label_names.length) ∧
    ((1 : Int) = 0 ∨ (1 : Int) = 1) :=
  ⟨by decide, by decide,
   c2_binary_entries [Val.num (fdec 0 0), Val.num (fdec 5 0)] 1 (by decide) (by decide)⟩

/-- Claim C5 (length reconciliation): the reconciled binary vector is
right-padded with zeros when shorter than the 24-label taxonomy and
truncated when longer, so it — and hence the per-label vector stored by
`predict` in `all_predictions` — always has exactly
`label_names.length = 24` entries. -/
theorem c5_reconcile_24 : ∀ (b : List Int) (intro : String)
    (scaler : List Frac → Except String (List Frac))
    (model : List Frac → Except String NpOut)
    (sensor : List (String × Frac)),
    label_names.length = 24 ∧
    (reconcile b).length = label_names.length ∧
    (b.length < label_names.length →
      reconcile b = b ++ List.replicate (label_names.length - b.length) 0) ∧
    (label_names.length < b.length → reconcile b = b.take label_names.length) ∧
    (match predict intro scaler model sensor with
     | .ok r => r.all_predictions.length = label_names.length
     | .error _ => True) := by
  intro b i scaler model sensor
  refine ⟨by decide, reconcile_length b, ?_, ?_, ?_⟩
  · intro h
    unfold reconcile
    rw [if_pos (Nat.ne_of_lt h), if_pos h]
  · intro h
    unfold reconcile
    rw [if_pos (Nat.ne_of_lt' h), if_neg (by omega)]
  · cases hp : predict i scaler model sensor with
    | error e => trivial
    | ok r =>
      unfold predict at hp
      split at hp
      · cases hp
      · split at hp
        · cases hp
        · split at hp
          · cases hp
          · injection hp with hp
            rw [← hp]
            simp only [List.length_zip, reconcile_length]
            exact min_self _

/-- Witness for C5: a short vector is zero-padded, and a successful concrete
`predict` stores a 24-entry vector. -/
theorem c5_reconcile_24_witness :
    reconcile [(1 : Int), 1] = [(1 : Int), 1] ++ List.replicate (label_names.length - 2) 0 ∧
    (match predict intro0 ok_scaler model_23 sample_sensor with
     | .ok r => r.all_predictions.length = label_names.length
     | .error _ => True) :=
  ⟨(c5_reconcile_24 [1, 1] intro0 ok_scaler model_23 sample_sensor).2.2.1 (by decide),
   (c5_reconcile_24 [1, 1] intro0 ok_scaler model_23 sample_sensor).2.2.2.2⟩

/-- Counterexample to claim C1: when the model invocation raises, the
exception PROPAGATES out of `predict` (no result with a zero vector and no
Recommendation is built); `monitor_continuous` catches it and SKIPS the
cycle, producing no Recommendation for it.  Only the conversion
(`astype`) block is guarded inside `predict`. -/
theorem c1_model_error_propagates :
    predict intro0 ok_scaler fail_model sample_sensor = Except.error "model failure" ∧
    monitor_cycle intro0 ok_scaler fail_model sample_sensor = none :=
  ⟨rfl, rfl⟩

/-- Claim C1 as amended: with valid sensor data and a successful scaler,
(a) if the MODEL INVOCATION raises, the exception propagates out of
`predict` and the monitoring cycle is skipped (no result, no
Recommendation), while monitoring itself continues with the next cycle;
(b) if instead the CONVERSION of the model output to floats fails, `predict`
catches it and returns a result with the all-zero 24-entry vector, an empty
active-label list, and a valid "normal"-priority Recommendation. -/
theorem c1_error_policy : ∀ (intro : String)
    (scaler : List Frac → Except String (List Frac))
    (model : List Frac → Except String NpOut)
    (sensor : List (String × Frac)) (xs : List Frac),
    (feature_names.filter (fun k => (sensor.lookup k).isNone)) = [] →
    scaler (feature_names.map (fun k => (sensor.lookup k).getD ⟨0, 1⟩)) = .ok xs →
    ((∀ e, model xs = .error e →
        predict intro scaler model sensor = .error e ∧
        monitor_cycle intro scaler model sensor = none) ∧
     (∀ out, model xs = .ok out → to_floats (normalize_shape out) = none →
        match predict intro scaler model sensor with
        | .ok r =>
          r.all_predictions = label_names.zip (List.replicate label_names.length 0) ∧
          r.active_labels = [] ∧
          r.recommendation = interpret intro [] sensor [] "detailed" ∧
          r.recommendation.priority = "normal"
        | .error _ => False)) := by
  intro i scaler model sensor xs hval hsc
  have hcond : ((feature_names.filter (fun k => (sensor.lookup k).isNone)).isEmpty = false) =
      False := by
    rw [hval]
    simp
  constructor
  · intro e he
    constructor
    · unfold predict
      rw [if_neg (by rw [hval]; simp)]
      simp only [hsc, he]
    · unfold monitor_cycle predict
      rw [if_neg (by rw [hval]; simp)]
      simp only [hsc, he]
  · intro out hout hconv
    have hzero : to_binary (normalize_shape out) label_names.length =
        List.replicate label_names.length 0 := by
      unfold to_binary
      rw [hconv]
    have hrec : reconcile (List.replicate label_names.length 0) =
        List.replicate label_names.length 0 := by decide
    have hact : active_labels_of (List.replicate label_names.length 0) = [] := by decide
    have hpred : predict i scaler model sensor =
        .ok { active_labels := [],
              num_active := ([] : List String).length,
              all_predictions := label_names.zip (List.replicate label_names.length 0),
              recommendation := interpret i [] sensor [] "detailed" } := by
      unfold predict
      rw [if_neg (by rw [hval]; simp)]
      simp only [hsc, hout, hzero, hrec, hact]
    rw [hpred]
    exact ⟨rfl, rfl, rfl, rfl⟩

/-- Witness for C1 (amended): both arms exercised at concrete inputs — a
raising model propagates and skips the cycle; a non-convertible output
yields the all-zero result with a valid normal Recommendation. -/
theorem c1_error_policy_witness :
    (predict intro0 ok_scaler fail_model sample_sensor = .error "model failure" ∧
     monitor_cycle intro0 ok_scaler fail_model sample_sensor = none) ∧
    (match predict intro0 ok_scaler badval_model sample_sensor with
     | .ok r =>
       r.all_predictions = label_names.zip (List.replicate label_names.length 0) ∧
       r.active_labels = [] ∧
       r.recommendation = interpret intro0 [] sample_sensor [] "detailed" ∧
       r.recommendation.priority = "normal"
     | .error _ => False) :=
  ⟨(c1_error_policy intro0 ok_scaler fail_model sample_sensor _ (by decide) rfl).1
     "model failure" rfl,
   (c1_error_policy intro0 ok_scaler badval_model sample_sensor _ (by decide) rfl).2
     (.arr1 [.nonnum]) rfl rfl⟩

/-- Claim C7: after ANY sequence of buffer updates (including none),
`read_all_sensors` returns exactly the 12 feature columns in order, each
bound to a value (a finite rational by construction — every stored or
default value is an exact fraction); every never-observed metric reads as
its static default constant, and `get_sensor_status` marks a feature
unavailable (`false`) exactly when it was never observed. -/
theorem c7_buffer_defaults : ∀ (us : List (String × Option Frac)) (f : String),
    (read_all_sensors (run_updates us)).map Prod.fst = feature_cols ∧
    (f ∈ feature_cols →
      (observed us f = false →
        (read_all_sensors (run_updates us)).lookup f = some (sensor_defaults f) ∧
        (get_sensor_status (run_updates us)).lookup f = some false) ∧
      (observed us f = true →
        (get_sensor_status (run_updates us)).lookup f = some true)) := by
  intro us f
  constructor
  · show List.map Prod.fst (feature_cols.map
        (fun f => (f, (run_updates us f).getD (sensor_defaults f)))) = feature_cols
    rw [List.map_map]
    exact List.map_id feature_cols
  · intro hf
    have hiff := run_updates_apply us init_buf f hf
    constructor
    · intro hobs
      have hnone : run_updates us f = none := by
        unfold run_updates
        exact hiff.mpr ⟨rfl, hobs⟩
      constructor
      · rw [read_all_sensors, lookup_map_self _ feature_cols f hf, hnone]
        rfl
      · rw [get_sensor_status, lookup_map_self _ feature_cols f hf, hnone]
        rfl
    · intro hobs
      have hne : run_updates us f ≠ none := by
        intro h
        unfold run_updates at h
        have := (hiff.mp h).2
        rw [hobs] at this
        cases this
      rw [get_sensor_status, lookup_map_self _ feature_cols f hf]
      cases hv : run_updates us f with
      | none => exact absurd hv hne
      | some v => rfl

/-- Witness for C7: after one observed metric, one failed parse and one
unknown metric, the never-observed metric reads as its default and is
marked unavailable, while the observed one is marked available. -/
theorem c7_buffer_defaults_witness :
    (read_all_sensors (run_updates
        [("heart_rate_bpm", some (fdec 72 0)), ("bogus", some (fdec 1 0)),
         ("spo2_pct", none)])).map Prod.fst = feature_cols ∧
    (read_all_sensors (run_updates
        [("heart_rate_bpm", some (fdec 72 0)), ("bogus", some (fdec 1 0)),
         ("spo2_pct", none)])).lookup "spo2_pct" = some (sensor_defaults "spo2_pct") ∧
    (get_sensor_status (run_updates
        [("heart_rate_bpm", some (fdec 72 0)), ("bogus", some (fdec 1 0)),
         ("spo2_pct", none)])).lookup "spo2_pct" = some false ∧
    (get_sensor_status (run_updates
        [("heart_rate_bpm", some (fdec 72 0)), ("bogus", some (fdec 1 0)),
         ("spo2_pct", none)])).lookup "heart_rate_bpm" = some true :=
  ⟨(c7_buffer_defaults _ "spo2_pct").1,
   (((c7_buffer_defaults _ "spo2_pct").2 (by decide)).1 (by decide)).1,
   (((c7_buffer_defaults _ "spo2_pct").2 (by decide)).1 (by decide)).2,
   ((c7_buffer_defaults _ "heart_rate_bpm").2 (by decide)).2 (by decide)⟩

/-- Claim C9: `_parse_line` is total (the embedding is a plain function and
the source can raise on no input), and for every sensor name and line it
returns a list of (metric, value-string) pairs such that: a line matching no
recognition rule yields the empty list, and a well-formed tri-axis
accelerometer (resp. gyroscope) line — one starting with `Accel:` (resp.
`Gyro:`), not containing the earlier-checked `Temperature:`/`Humidity:`
markers, and with all three axis patterns matching — yields exactly three
pairs, one per axis, in X, Y, Z order. -/
theorem c9_parse_line : ∀ (sensor line : String),
    (recognized sensor line = false → parse_line sensor line = []) ∧
    (∀ mx my mz : List Char,
      "Accel:".data.isPrefixOf (pstrip line.data) = true →
      contains_sub "Temperature:".data (pstrip line.data) = false →
      contains_sub "Humidity:".data (pstrip line.data) = false →
      search_axis 'X' ['g'] (pstrip line.data) = some mx →
      search_axis 'Y' ['g'] (pstrip line.data) = some my →
      search_axis 'Z' ['g'] (pstrip line.data) = some mz →
      parse_line sensor line =
        [("accel_x", String.mk mx), ("accel_y", String.mk my), ("accel_z", String.mk mz)]) ∧
    (∀ mx my mz : List Char,
      "Gyro:".data.isPrefixOf (pstrip line.data) = true →
      contains_sub "Temperature:".data (pstrip line.data) = false →
      contains_sub "Humidity:".data (pstrip line.data) = false →
      search_axis 'X' ['°', '/', 's'] (pstrip line.data) = some mx →
      search_axis 'Y' ['°', '/', 's'] (pstrip line.data) = some my →
      search_axis 'Z' ['°', '/', 's'] (pstrip line.data) = some mz →
      parse_line sensor line =
        [("gyro_x", String.mk mx), ("gyro_y", String.mk my), ("gyro_z", String.mk mz)]) := by
  intro sensor line
  refine ⟨?_, ?_, ?_⟩
  · intro h
    simp only [recognized, Bool.or_eq_false_iff] at h
    obtain ⟨⟨⟨⟨⟨⟨⟨h1, h2⟩, h3⟩, h4⟩, h5⟩, h6⟩, h7⟩, h8⟩ := h
    simp only [parse_line]
    rw [ite_map_none h1, ite_map_none h2, ite_map_none h3, ite_map_none h4,
      ite_map_none h7, ite_map_none h8]
    rw [h5, h6]
    rfl
  · intro mx my mz hA hT hH hx hy hz
    obtain ⟨t, hl, -⟩ := isPrefixOf_cons_ex 'A' "ccel:".data (pstrip line.data) hA
    have hr1 : full_line_num (pstrip line.data) = none := by
      rw [hl]
      exact full_line_num_head_none 'A' t (by decide) (by decide) (by decide) (by decide)
    have hr3 : "Pressure:".data.isPrefixOf (pstrip line.data) = false := by
      rw [hl]
      exact isPrefixOf_head_ne _ _ (by decide)
    simp only [parse_line, hr1, Option.map_none', ite_self, hT, Bool.false_and, hr3, hH,
      Bool.false_eq_true, if_false, hA, if_true, orD]
    simp only [axes_accel, axis_entry, hx, hy, hz]
    rfl
  · intro mx my mz hG hT hH hx hy hz
    obtain ⟨t, hl, -⟩ := isPrefixOf_cons_ex 'G' "yro:".data (pstrip line.data) hG
    have hr1 : full_line_num (pstrip line.data) = none := by
      rw [hl]
      exact full_line_num_head_none 'G' t (by decide) (by decide) (by decide) (by decide)
    have hr3 : "Pressure:".data.isPrefixOf (pstrip line.data) = false := by
      rw [hl]
      exact isPrefixOf_head_ne _ _ (by decide)
    have hr5 : "Accel:".data.isPrefixOf (pstrip line.data) = false := by
      rw [hl]
      exact isPrefixOf_head_ne _ _ (by decide)
    simp only [parse_line, hr1, Option.map_none', ite_self, hT, Bool.false_and, hr3, hH,
      Bool.false_eq_true, if_false, hr5, hG, if_true, orD]
    simp only [axes_gyro, axis_entry, hx, hy, hz]
    rfl

/-- Witness for C9: an unrecognized line yields nothing; a concrete
well-formed tri-axis accelerometer line yields its three axis pairs. -/
theorem c9_parse_line_witness :
    parse_line "bme280" "nonsense line" = [] ∧
    parse_line "mpu6050" "Accel: X=0.12g Y=-0.30g Z=0.98g" =
      [("accel_x", "0.12"), ("accel_y", "-0.30"), ("accel_z", "0.98")] :=
  ⟨(c9_parse_line "bme280" "nonsense line").1 (by decide),
   (c9_parse_line "mpu6050" "Accel: X=0.12g Y=-0.30g Z=0.98g").2.1
     "0.12".data "-0.30".data "0.98".data
     (by decide) (by decide) (by decide) (by decide) (by decide) (by decide)⟩
